import Mathlib

/-!
Verification of the imgv image viewer's core logic.

The development shallowly embeds the parts of the program that the
properties below talk about:

* `float2` / `Transform2D` — the affine scale+offset algebra from
  `src/math.rs` (`transform_point`, `inverse`, `concatenate`, ...).
  The program's `f32` values are modelled as exact rationals; every
  algebraic statement proved here therefore holds exactly, which is the
  idealized form of the program's "equal within floating-point rounding"
  behaviour.
* the input handlers of the viewer state machine from `src/main.rs`
  (mouse-wheel zoom, left-button drag, decode-result application).
* the directory-navigation helpers from `src/browse.rs` / `src/main.rs`
  (`is_compatible_file`, `get_next_file`, `switch_to_next_image`); the
  directory enumeration performed by `std::fs::read_dir` is passed in as
  an explicit (optional) list of file names, in enumeration order.
* the backbuffer policy of `GraphicsD3D11::update_backbuffer` from
  `src/graphics.rs` / `src/main.rs`, as a transition function on the
  allocated-dimension state, together with the `WM_SIZE` /
  `WM_ENTERSIZEMOVE` / `WM_EXITSIZEMOVE` fragment of the message loop.
-/

/-- Two-component vector, `cgmath::Vector2<f32>` from `src/math.rs`
(`pub type float2`); components modelled as exact rationals. -/
structure float2 where
  x : ℚ
  y : ℚ
  deriving DecidableEq, Repr

@[ext] theorem float2.ext {a b : float2} (hx : a.x = b.x) (hy : a.y = b.y) : a = b := by
  cases a; cases b; simp_all

instance : Add float2 := ⟨fun a b => ⟨a.x + b.x, a.y + b.y⟩⟩

instance : Sub float2 := ⟨fun a b => ⟨a.x - b.x, a.y - b.y⟩⟩

instance : Neg float2 := ⟨fun a => ⟨-a.x, -a.y⟩⟩

instance : HMul ℚ float2 float2 := ⟨fun s v => ⟨s * v.x, s * v.y⟩⟩

instance : HDiv ℚ float2 float2 := ⟨fun s v => ⟨s / v.x, s / v.y⟩⟩

/-- `cgmath`'s `mul_element_wise` on `Vector2`. -/
def float2.mul_element_wise (a b : float2) : float2 := ⟨a.x * b.x, a.y * b.y⟩

/-- `cgmath`'s `div_element_wise` on `Vector2`. -/
def float2.div_element_wise (a b : float2) : float2 := ⟨a.x / b.x, a.y / b.y⟩

/-- `FLOAT2_ONE` from `src/math.rs`. -/
def FLOAT2_ONE : float2 := ⟨1, 1⟩

/-- `FLOAT2_ZERO` from `src/math.rs`. -/
def FLOAT2_ZERO : float2 := ⟨0, 0⟩

@[simp] theorem float2.add_x (a b : float2) : (a + b).x = a.x + b.x := rfl

@[simp] theorem float2.add_y (a b : float2) : (a + b).y = a.y + b.y := rfl

@[simp] theorem float2.sub_x (a b : float2) : (a - b).x = a.x - b.x := rfl

@[simp] theorem float2.sub_y (a b : float2) : (a - b).y = a.y - b.y := rfl

@[simp] theorem float2.neg_x (a : float2) : (-a).x = -a.x := rfl

@[simp] theorem float2.neg_y (a : float2) : (-a).y = -a.y := rfl

@[simp] theorem float2.smul_x (s : ℚ) (v : float2) : (s * v).x = s * v.x := rfl

@[simp] theorem float2.smul_y (s : ℚ) (v : float2) : (s * v).y = s * v.y := rfl

@[simp] theorem float2.sdiv_x (s : ℚ) (v : float2) : (s / v).x = s / v.x := rfl

@[simp] theorem float2.sdiv_y (s : ℚ) (v : float2) : (s / v).y = s / v.y := rfl

@[simp] theorem float2.mul_element_wise_x (a b : float2) :
    (a.mul_element_wise b).x = a.x * b.x := rfl

@[simp] theorem float2.mul_element_wise_y (a b : float2) :
    (a.mul_element_wise b).y = a.y * b.y := rfl

@[simp] theorem float2.div_element_wise_x (a b : float2) :
    (a.div_element_wise b).x = a.x / b.x := rfl

@[simp] theorem float2.div_element_wise_y (a b : float2) :
    (a.div_element_wise b).y = a.y / b.y := rfl

/-- `Transform2D` from `src/math.rs`: affine map `p' = p*scale + offset`. -/
structure Transform2D where
  scale : float2
  offset : float2
  deriving DecidableEq, Repr

/-- `Transform2D::new_identity`. -/
def Transform2D.new_identity : Transform2D := ⟨FLOAT2_ONE, FLOAT2_ZERO⟩

/-- `Transform2D::new_scale`. -/
def Transform2D.new_scale (scale : float2) : Transform2D := ⟨scale, FLOAT2_ZERO⟩

/-- `Transform2D::new_translate`. -/
def Transform2D.new_translate (offset : float2) : Transform2D := ⟨FLOAT2_ONE, offset⟩

/-- `Transform2D::transform_point`: `v.mul_element_wise(self.scale) + self.offset`. -/
def Transform2D.transform_point (t : Transform2D) (v : float2) : float2 :=
  v.mul_element_wise t.scale + t.offset

/-- `Transform2D::inverse`: `{scale: 1.0/scale, offset: -offset.div_element_wise(scale)}`. -/
def Transform2D.inverse (t : Transform2D) : Transform2D :=
  ⟨(1 : ℚ) / t.scale, -(t.offset.div_element_wise t.scale)⟩

/-- `Transform2D::concatenate`: scale is the elementwise product, offset is
`self.offset*other.scale + other.offset`. -/
def Transform2D.concatenate (t other : Transform2D) : Transform2D :=
  ⟨t.scale.mul_element_wise other.scale,
   t.offset.mul_element_wise other.scale + other.offset⟩

theorem Transform2D.concatenate_apply (t1 t2 : Transform2D) (p : float2) :
    (t1.concatenate t2).transform_point p = t2.transform_point (t1.transform_point p) := by
  ext <;>
    simp [Transform2D.concatenate, Transform2D.transform_point] <;> ring

/-- The zoom factor chosen by the `WM_MOUSEWHEEL` handler in `src/main.rs`:
`(0.8, 0.8)` for a positive wheel delta, `(1.2, 1.2)` otherwise. -/
def wheel_zoom_factor (scroll_delta : Int) : float2 :=
  if 0 < scroll_delta then ⟨0.8, 0.8⟩ else ⟨1.2, 1.2⟩

/-- The `WM_MOUSEWHEEL` handler of `src/main.rs` applied to the current
window-to-image transform `t` and recorded mouse position `mouse_pos`:
builds `translate(-p) ∘ scale(zoom) ∘ translate(p)` around the image-space
cursor position `p` and concatenates it onto `t`. -/
def wheel_zoom (t : Transform2D) (mouse_pos : float2) (scroll_delta : Int) : Transform2D :=
  let zoom := wheel_zoom_factor scroll_delta
  let mouse_pos_img := t.transform_point mouse_pos
  let zoom_transform :=
    ((Transform2D.new_translate (-mouse_pos_img)).concatenate
        (Transform2D.new_scale zoom)).concatenate
      (Transform2D.new_translate mouse_pos_img)
  t.concatenate zoom_transform

/-- The `WM_LBUTTONDOWN` handler of `src/main.rs`:
`drag_origin = mouse_pos - xfm_window_to_image.inverse().offset`. -/
def drag_origin_on_lbuttondown (t : Transform2D) (mouse_pos : float2) : float2 :=
  mouse_pos - t.inverse.offset

/-- The dragging branch of the `WM_MOUSEMOVE` handler of `src/main.rs`:
the new offset is `(drag_origin - mouse_pos).mul_element_wise(scale)`,
where `mouse_pos` is the freshly decoded cursor position. -/
def offset_on_mousemove (t : Transform2D) (drag_origin mouse_pos : float2) : float2 :=
  (drag_origin - mouse_pos).mul_element_wise t.scale

/-- C1: a wheel-zoom event concatenates the translate/scale/translate
zoom transform onto the current transform; the new transform maps the
window-space cursor position to the same image-space point as before
(the pixel under the cursor stays fixed), and the scale is multiplied by
`(0.8, 0.8)` for a forward (positive-delta) notch and `(1.2, 1.2)`
otherwise. -/
theorem wheel_zoom_keeps_cursor_pixel (t : Transform2D) (m : float2) (d : Int) :
    (wheel_zoom t m d).transform_point m = t.transform_point m ∧
      (wheel_zoom t m d).scale =
        t.scale.mul_element_wise (if 0 < d then ⟨0.8, 0.8⟩ else ⟨1.2, 1.2⟩) := by
  constructor
  · by_cases hd : 0 < d <;>
      · ext <;>
          simp [wheel_zoom, wheel_zoom_factor, hd, Transform2D.concatenate,
            Transform2D.transform_point, Transform2D.new_translate,
            Transform2D.new_scale, FLOAT2_ONE, FLOAT2_ZERO] <;> ring
  · by_cases hd : 0 < d <;>
      · ext <;>
          simp [wheel_zoom, wheel_zoom_factor, hd, Transform2D.concatenate,
            Transform2D.new_translate, Transform2D.new_scale, FLOAT2_ONE, FLOAT2_ZERO]

/-- C2: with nonzero scale, the drag handlers preserve the grabbed
image-space point: after a pointer-down at `m0` records `drag_origin`
and a later move to `m1` rewrites the offset (leaving the scale
unchanged), the transform maps `m1` to the image-space point that the
original transform mapped `m0` to. -/
theorem pan_keeps_grabbed_point (t : Transform2D) (m0 m1 : float2)
    (hx : t.scale.x ≠ 0) (hy : t.scale.y ≠ 0) :
    (Transform2D.mk t.scale
        (offset_on_mousemove t (drag_origin_on_lbuttondown t m0) m1)).scale = t.scale ∧
      (Transform2D.mk t.scale
          (offset_on_mousemove t (drag_origin_on_lbuttondown t m0) m1)).transform_point m1 =
        t.transform_point m0 := by
  refine ⟨rfl, ?_⟩
  ext
  · simp [offset_on_mousemove, drag_origin_on_lbuttondown, Transform2D.inverse,
      Transform2D.transform_point]
    field_simp
    ring
  · simp [offset_on_mousemove, drag_origin_on_lbuttondown, Transform2D.inverse,
      Transform2D.transform_point]
    field_simp
    ring

/-- Witness for C2 at a concrete transform and mouse positions. -/
theorem pan_keeps_grabbed_point_at :
    (Transform2D.mk (float2.mk 2 3)
        (offset_on_mousemove ⟨⟨2, 3⟩, ⟨4, 5⟩⟩
          (drag_origin_on_lbuttondown ⟨⟨2, 3⟩, ⟨4, 5⟩⟩ ⟨1, 2⟩) ⟨10, 20⟩)).scale =
      (Transform2D.mk (float2.mk 2 3) (float2.mk 4 5)).scale ∧
      (Transform2D.mk (float2.mk 2 3)
          (offset_on_mousemove ⟨⟨2, 3⟩, ⟨4, 5⟩⟩
            (drag_origin_on_lbuttondown ⟨⟨2, 3⟩, ⟨4, 5⟩⟩ ⟨1, 2⟩) ⟨10, 20⟩)).transform_point
          ⟨10, 20⟩ =
        (Transform2D.mk (float2.mk 2 3) (float2.mk 4 5)).transform_point ⟨1, 2⟩ :=
  pan_keeps_grabbed_point ⟨⟨2, 3⟩, ⟨4, 5⟩⟩ ⟨1, 2⟩ ⟨10, 20⟩ (by norm_num) (by norm_num)

/-- C8: `concatenate` applies `self`'s mapping first and then `other`'s;
its scale is the elementwise product and its offset is
`self.offset*other.scale + other.offset`; and the concrete example
`t1={scale:(2,3),offset:(4,5)}`, `t2={scale:(3,4),offset:(5,6)}` maps
`(1,1)` to `(23,38)`. -/
theorem concatenate_order_and_formula :
    (∀ (t1 t2 : Transform2D) (p : float2),
        (t1.concatenate t2).transform_point p = t2.transform_point (t1.transform_point p)) ∧
      (∀ t1 t2 : Transform2D,
          (t1.concatenate t2).scale = t1.scale.mul_element_wise t2.scale ∧
            (t1.concatenate t2).offset = t1.offset.mul_element_wise t2.scale + t2.offset) ∧
      (Transform2D.concatenate ⟨⟨2, 3⟩, ⟨4, 5⟩⟩ ⟨⟨3, 4⟩, ⟨5, 6⟩⟩).transform_point ⟨1, 1⟩ =
        ⟨23, 38⟩ := by
  refine ⟨Transform2D.concatenate_apply, fun t1 t2 => ⟨rfl, rfl⟩, ?_⟩
  ext <;> norm_num [Transform2D.concatenate, Transform2D.transform_point]

/-- C9: for a transform with nonzero scale components, `inverse` composed
with the forward map is the identity: `t.inverse().transform_point(
t.transform_point(p)) = p` (exactly, in the rational model). -/
theorem inverse_round_trip (t : Transform2D) (p : float2)
    (hx : t.scale.x ≠ 0) (hy : t.scale.y ≠ 0) :
    t.inverse.transform_point (t.transform_point p) = p := by
  ext
  · simp [Transform2D.inverse, Transform2D.transform_point]
    field_simp
  · simp [Transform2D.inverse, Transform2D.transform_point]
    field_simp

/-- Witness for C9 at the transform and point used by the repository's
own unit test (`test_transform` in `src/math.rs`). -/
theorem inverse_round_trip_at :
    (Transform2D.mk (float2.mk 2 3) (float2.mk 4 5)).inverse.transform_point
        ((Transform2D.mk (float2.mk 2 3) (float2.mk 4 5)).transform_point ⟨123, 456⟩) =
      ⟨123, 456⟩ :=
  inverse_round_trip ⟨⟨2, 3⟩, ⟨4, 5⟩⟩ ⟨123, 456⟩ (by norm_num) (by norm_num)

/-- ASCII lowercasing, `str::to_ascii_lowercase` as used by
`is_compatible_file`. -/
def to_ascii_lowercase (s : String) : String :=
  String.mk (s.toList.map fun c => if 'A' ≤ c ∧ c ≤ 'Z' then Char.ofNat (c.toNat + 32) else c)

/-- `std::path::Path::extension` restricted to a bare file name: the
portion after the final `.`, unless there is no `.` or the only `.` is
the leading character (hidden-file rule). -/
def file_name_extension (name : String) : Option String :=
  let cs := name.toList
  let dots := (List.range cs.length).filter fun i => cs.getD i ' ' = '.'
  match dots.getLast? with
  | none => none
  | some i => if i = 0 then none else some (String.mk (cs.drop (i + 1)))

/-- The extension whitelist of `is_compatible_file` in `src/browse.rs`. -/
def compatible_extensions : List String :=
  ["jpg", "jpeg", "png", "gif", "webp", "tif", "tiff", "tga", "dds", "bmp", "ico", "hdr",
   "pbm", "pam", "ppm", "pgm", "ff"]

/-- `is_compatible_file` from `src/browse.rs`: the file name's extension,
ASCII-lowercased, must equal one of the whitelisted extensions. -/
def is_compatible_file (name : String) : Bool :=
  match file_name_extension name with
  | some ext => compatible_extensions.contains (to_ascii_lowercase ext)
  | none => false

/-- `StepDirection` from `src/browse.rs`. -/
inductive StepDirection where
  | Backward
  | Forward
  deriving DecidableEq, Repr

/-- `get_next_file` from `src/browse.rs`, from its `std::fs::read_dir`
call on: the directory's entries (file names, in enumeration order) are
passed explicitly, with `none` modelling a failed `read_dir`. The
function filters the entries to the compatible files, locates the
current file by exact name match, and steps by one with no wraparound.
The source function's two leading unwraps, `path.parent().unwrap()` and
`path.file_name().unwrap()`, which abort the process for a parentless or
nameless path, are modelled at its call site in `switch_to_next_image`
(as `Except.error`); this body is only reached with both present, and
takes the already-unwrapped file name. -/
def get_next_file (dir : Option (List String)) (file_name : String)
    (direction : StepDirection) : Option String :=
  match dir with
  | some entries =>
    let files := entries.filter fun f => is_compatible_file f
    match files.findIdx? fun f => f == file_name with
    | some i =>
      match direction with
      | .Backward => if 0 < i then files[i - 1]? else none
      | .Forward => if i + 1 < files.length then files[i + 1]? else none
    | none => none
  | none => none

/-- A file path as the navigation code sees it: an optional parent
directory and an optional final component (`Path::parent` /
`Path::file_name`, both of which return `None` for degenerate paths such
as a filesystem root). -/
structure ModelPath where
  parent : Option String
  file_name : Option String
  deriving DecidableEq, Repr

/-- `switch_to_next_image` from `src/main.rs`: calls `get_next_file`,
whose first two lines unwrap `parent()` and `file_name()` of the current
path — for a parentless or nameless path the process panics, modelled as
`Except.error ()`. Otherwise, if a neighboring file exists (the parent
directory necessarily exists on this path), it is joined with the
directory, a load request for the joined path is submitted and the path
returned; otherwise the current path is returned unchanged and nothing
is submitted. The list collects the load requests sent on
`load_req_tx`. -/
def switch_to_next_image (dir : Option (List String)) (current : ModelPath)
    (direction : StepDirection) :
    Except Unit (Option ModelPath × List ModelPath) :=
  match current.parent, current.file_name with
  | some d, some name =>
    match get_next_file dir name direction with
    | some next_name => .ok (some ⟨some d, some next_name⟩, [⟨some d, some next_name⟩])
    | none => .ok (some current, [])
  | _, _ => .error ()

/-- The events of the message loop in `src/main.rs` that touch the
tracked `image_path`: a drag-and-drop/startup open (sets it), a
navigation request (`VK_LEFT`/`VK_RIGHT`/`WM_XBUTTONDOWN`, which the
loop only performs when `image_path.is_some()`), and any other event
(leaves it untouched). -/
inductive NavEvent where
  | openFile (path : ModelPath)
  | navigate (dir : Option (List String)) (direction : StepDirection)
  | other
  deriving Repr

/-- The effect of one message-loop event on the tracked `image_path` in
`src/main.rs`; `Except.error` propagates a panic inside
`switch_to_next_image`. -/
def step_image_path (image_path : Option ModelPath) (e : NavEvent) :
    Except Unit (Option ModelPath) :=
  match e with
  | .openFile p => .ok (some p)
  | .navigate dir direction =>
    match image_path with
    | some p =>
      match switch_to_next_image dir p direction with
      | .ok r => .ok r.fst
      | .error u => .error u
    | none => .ok image_path
  | .other => .ok image_path

/-- A run of the message loop over a list of events: the tracked
`image_path` after all events, or `Except.error` if some navigation
event aborted the process. -/
def run_image_path (events : List NavEvent) (image_path : Option ModelPath) :
    Except Unit (Option ModelPath) :=
  match events with
  | [] => .ok image_path
  | e :: rest =>
    match step_image_path image_path e with
    | .ok ip => run_image_path rest ip
    | .error u => .error u

/-- C5: filtering the directory `[a.png, b.jpg, c.txt, d.gif]` keeps
`[a.png, b.jpg, d.gif]`; stepping has no wraparound (`Forward` from
`d.gif` and `Backward` from `a.png` yield nothing, `Forward` from
`a.png` yields `b.jpg`); the whitelist match is case-insensitive; and
when no neighbor exists `switch_to_next_image` submits no load
request. -/
theorem get_next_file_boundary :
    (["a.png", "b.jpg", "c.txt", "d.gif"].filter fun f => is_compatible_file f) =
        ["a.png", "b.jpg", "d.gif"] ∧
      get_next_file (some ["a.png", "b.jpg", "c.txt", "d.gif"]) "d.gif" .Forward = none ∧
      get_next_file (some ["a.png", "b.jpg", "c.txt", "d.gif"]) "a.png" .Backward = none ∧
      get_next_file (some ["a.png", "b.jpg", "c.txt", "d.gif"]) "a.png" .Forward =
        some "b.jpg" ∧
      is_compatible_file "x.PNG" = true ∧
      switch_to_next_image (some ["a.png", "b.jpg", "c.txt", "d.gif"])
          ⟨some "pics", some "d.gif"⟩ .Forward =
        Except.ok (some ⟨some "pics", some "d.gif"⟩, []) ∧
      switch_to_next_image (some ["a.png", "b.jpg", "c.txt", "d.gif"])
          ⟨some "pics", some "a.png"⟩ .Backward =
        Except.ok (some ⟨some "pics", some "a.png"⟩, []) := by
  refine ⟨by decide, by decide, by decide, by decide, by decide, rfl, rfl⟩

/-- Counterexample to C10 as stated: for a parentless current path
(reachable by launching with a filesystem root such as `C:\` or `/` as
the CLI argument and pressing `VK_RIGHT`), a navigation request does NOT
return the current image path unchanged: `path.parent().unwrap()` inside
`switch_to_next_image`'s call to `get_next_file` panics, aborting the
process instead of returning `Some`. -/
theorem switch_to_next_image_aborts_on_parentless_path :
    switch_to_next_image (some ["a.png"]) ⟨none, none⟩ StepDirection.Forward =
        Except.error () ∧
      switch_to_next_image (some ["a.png"]) ⟨none, none⟩ StepDirection.Forward ≠
        Except.ok (some ⟨none, none⟩, []) ∧
      run_image_path [NavEvent.navigate (some ["a.png"]) StepDirection.Forward]
        (some ⟨none, none⟩) = Except.error () := by
  refine ⟨rfl, ?_, rfl⟩
  intro h
  exact Except.noConfusion h

/-- C10 (amended): unless the current path is degenerate (no parent
directory or no final component, in which case the unwraps inside
`get_next_file` abort the process), `switch_to_next_image` returns
`some`: every non-aborting call yields a `some` path, and when
`get_next_file` finds no neighboring file the current path is returned
unchanged with no load request submitted; degenerate paths abort;
consequently, in every run of the message loop that does not abort, once
the tracked `image_path` is set it never becomes `none` again. -/
theorem switch_to_next_image_some_unless_abort :
    (∀ (dir : Option (List String)) (current : ModelPath) (direction : StepDirection)
        (r : Option ModelPath × List ModelPath),
        switch_to_next_image dir current direction = .ok r → r.fst.isSome = true) ∧
      (∀ (dir : Option (List String)) (d name : String) (direction : StepDirection),
          get_next_file dir name direction = none →
          switch_to_next_image dir ⟨some d, some name⟩ direction =
            .ok (some ⟨some d, some name⟩, [])) ∧
      (∀ (dir : Option (List String)) (current : ModelPath) (direction : StepDirection),
          current.parent = none ∨ current.file_name = none →
          switch_to_next_image dir current direction = .error ()) ∧
      (∀ (events : List NavEvent) (ip : Option ModelPath) (r : Option ModelPath),
          ip.isSome = true → run_image_path events ip = .ok r → r.isSome = true) := by
  have hok : ∀ (dir : Option (List String)) (current : ModelPath)
      (direction : StepDirection) (r : Option ModelPath × List ModelPath),
      switch_to_next_image dir current direction = .ok r → r.fst.isSome = true := by
    intro dir current direction r h
    rcases current with ⟨pv, fv⟩
    rcases pv with _ | d <;> rcases fv with _ | name <;>
      simp only [switch_to_next_image] at h
    · cases h
    · cases h
    · cases h
    · rcases hg : get_next_file dir name direction with _ | nn <;>
        simp only [hg] at h
      · cases h
        rfl
      · cases h
        rfl
  have hstep : ∀ (ip : Option ModelPath) (e : NavEvent) (ip2 : Option ModelPath),
      ip.isSome = true → step_image_path ip e = .ok ip2 → ip2.isSome = true := by
    intro ip e ip2 hip hs
    rcases e with p | ⟨dir, direction⟩ | _
    · cases hs; rfl
    · rcases ip with _ | p
      · simp at hip
      · simp only [step_image_path] at hs
        rcases hw : switch_to_next_image dir p direction with u | r <;>
          simp only [hw] at hs
        · cases hs
        · cases hs
          exact hok dir p direction r hw
    · cases hs; exact hip
  refine ⟨hok, ?_, ?_, ?_⟩
  · intro dir d name direction h
    simp only [switch_to_next_image, h]
  · intro dir current direction h
    rcases current with ⟨pv, fv⟩
    rcases pv with _ | d <;> rcases fv with _ | name <;>
      simp only [switch_to_next_image]
    rcases h with h | h <;> simp at h
  · intro events
    induction events with
    | nil =>
      intro ip r hip hr
      cases hr
      exact hip
    | cons e rest ih =>
      intro ip r hip hr
      unfold run_image_path at hr
      rcases hs : step_image_path ip e with u | ip2 <;> rw [hs] at hr
      · cases hr
      · exact ih ip2 r (hstep ip e ip2 hip hs) hr

/-- Witness for C10 (amended) at concrete inputs: an event that is not a
navigation keeps a set `image_path` set through `run_image_path`, and a
no-neighbor forward step from `d.gif` returns the path unchanged with no
load request. -/
theorem switch_to_next_image_some_unless_abort_at :
    (some (ModelPath.mk (some "pics") (some "a.png")) : Option ModelPath).isSome = true ∧
      switch_to_next_image (some ["a.png", "b.jpg", "c.txt", "d.gif"])
          (ModelPath.mk (some "pics") (some "d.gif")) StepDirection.Forward =
        Except.ok (some (ModelPath.mk (some "pics") (some "d.gif")), []) :=
  ⟨switch_to_next_image_some_unless_abort.2.2.2 [NavEvent.other]
      (some ⟨some "pics", some "a.png"⟩) (some ⟨some "pics", some "a.png"⟩) rfl rfl,
   switch_to_next_image_some_unless_abort.2.1 (some ["a.png", "b.jpg", "c.txt", "d.gif"])
      "pics" "d.gif" StepDirection.Forward (by decide)⟩

/-- The viewer fields mutated by the decode-result branch of the main
loop in `src/main.rs`: the displayed texture (here an opaque identifier),
the displayed image dimensions (`constants.image_dim`), the window
dimensions (`main_window.window_dim`) and the pan/zoom transform. -/
structure ViewerApplyState where
  texture : Option Nat
  image_dim : float2
  window_dim : float2
  xfm_window_to_image : Transform2D
  deriving DecidableEq, Repr

/-- `ViewerState::reset_image_transform` from `src/main.rs` (also the
`VK_HOME` handler): identity transform, then
`offset = 0.5*image_dim - 0.5*window_dim`. -/
def reset_image_transform (image_dim window_dim : float2) : Transform2D :=
  ⟨FLOAT2_ONE, (0.5 : ℚ) * image_dim - (0.5 : ℚ) * window_dim⟩

/-- The decode-result branch of the main loop in `src/main.rs`.
`result` is `none` for a failed decode (`image::open` returned `Err`;
the code only logs) and `some (tex, dim)` for a success (a new texture
is uploaded and stored). On success, if the new dimensions differ from
the displayed `image_dim`, the window is resized to the image
(`set_image_size`; the resulting window dimensions enter as
`post_window_dim`, since they come back from the OS) and the transform
is reset to identity-then-centered; if they are identical, the
transform, `image_dim` and `window_dim` are left untouched. -/
def apply_decode_result (s : ViewerApplyState) (result : Option (Nat × float2))
    (post_window_dim : float2) : ViewerApplyState :=
  match result with
  | some (tex, new_dim) =>
    let s1 : ViewerApplyState := { s with texture := some tex }
    if s1.image_dim ≠ new_dim then
      { s1 with
        image_dim := new_dim
        window_dim := post_window_dim
        xfm_window_to_image := reset_image_transform new_dim post_window_dim }
    else s1
  | none => s

/-- C3: applying a successful decode result resets the transform to
identity scale with offset `0.5*image_dim - 0.5*window_dim` exactly when
the new image's dimensions differ from the displayed ones, and leaves
the pan/zoom transform untouched when they are identical. -/
theorem decode_success_recenter (s : ViewerApplyState) (tex : Nat)
    (new_dim post_window_dim : float2) :
    (s.image_dim ≠ new_dim →
        (apply_decode_result s (some (tex, new_dim)) post_window_dim).xfm_window_to_image =
            reset_image_transform new_dim post_window_dim ∧
          (apply_decode_result s (some (tex, new_dim)) post_window_dim).image_dim = new_dim) ∧
      (s.image_dim = new_dim →
          (apply_decode_result s (some (tex, new_dim)) post_window_dim).xfm_window_to_image =
              s.xfm_window_to_image ∧
            (apply_decode_result s (some (tex, new_dim)) post_window_dim).image_dim =
              s.image_dim) ∧
      (reset_image_transform new_dim post_window_dim).scale = FLOAT2_ONE := by
  refine ⟨fun h => ?_, fun h => ?_, rfl⟩
  · simp [apply_decode_result, h]
  · simp [apply_decode_result, h]

/-- Witness for C3: a 2×2 image replacing a 1×1 one in a 10×10 window
recenters (offset `(-4, -4)`), while a same-dimension reload keeps the
transform. -/
theorem decode_success_recenter_at :
    ((apply_decode_result ⟨some 0, ⟨1, 1⟩, ⟨10, 10⟩, ⟨⟨7, 7⟩, ⟨9, 9⟩⟩⟩
          (some (1, ⟨2, 2⟩)) ⟨10, 10⟩).xfm_window_to_image =
          reset_image_transform ⟨2, 2⟩ ⟨10, 10⟩ ∧
        (apply_decode_result ⟨some 0, ⟨1, 1⟩, ⟨10, 10⟩, ⟨⟨7, 7⟩, ⟨9, 9⟩⟩⟩
            (some (1, ⟨2, 2⟩)) ⟨10, 10⟩).image_dim = ⟨2, 2⟩) ∧
      ((apply_decode_result ⟨some 0, ⟨2, 2⟩, ⟨10, 10⟩, ⟨⟨7, 7⟩, ⟨9, 9⟩⟩⟩
            (some (1, ⟨2, 2⟩)) ⟨10, 10⟩).xfm_window_to_image = ⟨⟨7, 7⟩, ⟨9, 9⟩⟩ ∧
        (apply_decode_result ⟨some 0, ⟨2, 2⟩, ⟨10, 10⟩, ⟨⟨7, 7⟩, ⟨9, 9⟩⟩⟩
            (some (1, ⟨2, 2⟩)) ⟨10, 10⟩).image_dim = ⟨2, 2⟩) :=
  ⟨(decode_success_recenter ⟨some 0, ⟨1, 1⟩, ⟨10, 10⟩, ⟨⟨7, 7⟩, ⟨9, 9⟩⟩⟩ 1 ⟨2, 2⟩ ⟨10, 10⟩).1
      (by norm_num [float2.ext_iff]),
   (decode_success_recenter ⟨some 0, ⟨2, 2⟩, ⟨10, 10⟩, ⟨⟨7, 7⟩, ⟨9, 9⟩⟩⟩ 1 ⟨2, 2⟩ ⟨10, 10⟩).2.1
      rfl⟩

/-- C4: a failing decode result mutates nothing: the texture, the
displayed image dimensions, the window dimensions and the pan/zoom
transform all keep their previous values. -/
theorem decode_failure_mutates_nothing (s : ViewerApplyState) (post_window_dim : float2) :
    apply_decode_result s none post_window_dim = s ∧
      (apply_decode_result s none post_window_dim).texture = s.texture ∧
      (apply_decode_result s none post_window_dim).image_dim = s.image_dim ∧
      (apply_decode_result s none post_window_dim).xfm_window_to_image =
        s.xfm_window_to_image :=
  ⟨rfl, rfl, rfl, rfl⟩

/-- Modelled from the spec: `update_backbuffer` (in `src/graphics.rs` and
`src/main.rs`) rounds the requested client dimensions up with an
`align_up(x, 512)` helper whose definition is not among the provided
sources — only its call sites are. It is modelled by its conventional
meaning, the smallest multiple of `a` that is `≥ x`. -/
def align_up (x a : Nat) : Nat := (x + a - 1) / a * a

/-- `GraphicsD3D11::update_backbuffer` from `src/graphics.rs` /
`src/main.rs`, as a transition on the allocated backbuffer dimensions.
The client-area size is passed explicitly (the code reads it from the
window). Returns the new allocation state and whether the
release/`ResizeBuffers`/recreate path ran (`true`) or the call was the
early-return no-op (`false`). -/
def update_backbuffer (backbuffer : Option (Nat × Nat)) (client_dim : Nat × Nat) :
    Option (Nat × Nat) × Bool :=
  let new_dim : Nat × Nat := (align_up client_dim.1 512, align_up client_dim.2 512)
  match backbuffer with
  | some dim =>
    if new_dim.1 ≤ dim.1 ∧ new_dim.2 ≤ dim.2 then (some dim, false)
    else (some new_dim, true)
  | none => (some new_dim, true)

/-- A sequence of `update_backbuffer` calls starting from the initial
(unallocated) state, yielding the final allocation. -/
def run_backbuffer (requests : List (Nat × Nat)) : Option (Nat × Nat) :=
  requests.foldl (fun bb c => (update_backbuffer bb c).fst) none

theorem align_up_dvd (x : Nat) : 512 ∣ align_up x 512 :=
  ⟨(x + 512 - 1) / 512, Nat.mul_comm _ _⟩

theorem le_align_up (x : Nat) : x ≤ align_up x 512 := by
  unfold align_up
  omega

theorem align_up_le {c d : Nat} (hd : 512 ∣ d) (h : c ≤ d) : align_up c 512 ≤ d := by
  obtain ⟨m, hm⟩ := hd
  subst hm
  unfold align_up
  omega

theorem foldl_update_backbuffer_dvd (requests : List (Nat × Nat)) :
    ∀ init : Option (Nat × Nat),
      (∀ e : Nat × Nat, init = some e → 512 ∣ e.1 ∧ 512 ∣ e.2) →
      ∀ d : Nat × Nat,
        requests.foldl (fun bb c => (update_backbuffer bb c).fst) init = some d →
        512 ∣ d.1 ∧ 512 ∣ d.2 := by
  induction requests with
  | nil =>
    intro init hinit d hd
    simp only [List.foldl_nil] at hd
    exact hinit d hd
  | cons c rest ih =>
    intro init hinit d hd
    rw [List.foldl_cons] at hd
    refine ih _ ?_ d hd
    intro e he
    rcases init with _ | old
    · simp only [update_backbuffer] at he
      cases he
      exact ⟨align_up_dvd _, align_up_dvd _⟩
    · simp only [update_backbuffer] at he
      by_cases hle : align_up c.1 512 ≤ old.1 ∧ align_up c.2 512 ≤ old.2
      · rw [if_pos hle] at he
        cases he
        exact hinit _ rfl
      · rw [if_neg hle] at he
        cases he
        exact ⟨align_up_dvd _, align_up_dvd _⟩

theorem run_backbuffer_dvd (requests : List (Nat × Nat)) (d : Nat × Nat)
    (h : run_backbuffer requests = some d) : 512 ∣ d.1 ∧ 512 ∣ d.2 :=
  foldl_update_backbuffer_dvd requests none (by intro e he; cases he) d h

/-- C6 (amended): over any call sequence, if the allocated backbuffer's
dimensions are both at least the newly requested client size, the call
is the early-return no-op; the release/resize/recreate path runs only
when a requested dimension exceeds the allocated one on that axis; and
when it runs, the new allocation is exactly the 512-aligned requested
size (so the axis whose request shrank can decrease while the other
grows). -/
theorem backbuffer_grow_policy (requests : List (Nat × Nat)) (d c : Nat × Nat)
    (h : run_backbuffer requests = some d) :
    (c.1 ≤ d.1 ∧ c.2 ≤ d.2 → update_backbuffer (some d) c = (some d, false)) ∧
      ((update_backbuffer (some d) c).snd = true → d.1 < c.1 ∨ d.2 < c.2) ∧
      ((update_backbuffer (some d) c).snd = true →
        (update_backbuffer (some d) c).fst =
          some (align_up c.1 512, align_up c.2 512)) := by
  obtain ⟨h1, h2⟩ := run_backbuffer_dvd requests d h
  refine ⟨?_, ?_, ?_⟩
  · intro hc
    simp only [update_backbuffer]
    rw [if_pos ⟨align_up_le h1 hc.1, align_up_le h2 hc.2⟩]
  · intro hrealloc
    by_contra hcon
    push_neg at hcon
    simp only [update_backbuffer] at hrealloc
    rw [if_pos ⟨align_up_le h1 hcon.1, align_up_le h2 hcon.2⟩] at hrealloc
    simp at hrealloc
  · intro hrealloc
    simp only [update_backbuffer] at hrealloc ⊢
    by_cases hle : align_up c.1 512 ≤ d.1 ∧ align_up c.2 512 ≤ d.2
    · rw [if_pos hle] at hrealloc
      simp at hrealloc
    · rw [if_neg hle]

/-- Witness for C6 (amended): after allocating for a 100×100 client the
backbuffer is 512×512, and a 200×200 request is a no-op. -/
theorem backbuffer_grow_policy_at :
    update_backbuffer (some (512, 512)) (200, 200) = (some (512, 512), false) :=
  (backbuffer_grow_policy [(100, 100)] (512, 512) (200, 200) rfl).1 ⟨by decide, by decide⟩

/-- Counterexample to C6 as stated: allocated backbuffer dimensions CAN
decrease. After a 100×1000 client request the allocation is 512×1024;
a following 600×100 request exceeds the allocated width, and the
reallocation shrinks the height from 1024 to 512. -/
theorem backbuffer_dims_can_shrink :
    run_backbuffer [(100, 1000)] = some (512, 1024) ∧
      run_backbuffer [(100, 1000), (600, 100)] = some (1024, 512) ∧
      (512 : Nat) < 1024 := by decide

/-- The `WM_ENTERSIZEMOVE` / `WM_EXITSIZEMOVE` / `WM_SIZE` events of the
message loop in `src/main.rs`, restricted to their effect on the
resizing flag and the backbuffer. -/
inductive ResizeEvent where
  | enterSizeMove
  | size (client_dim : Nat × Nat)
  | exitSizeMove
  deriving DecidableEq, Repr

/-- The state those handlers touch: `ViewerState::is_resizing` and the
allocated backbuffer dimensions. -/
structure ResizeLoopState where
  is_resizing : Bool
  backbuffer : Option (Nat × Nat)
  deriving DecidableEq, Repr

/-- The corresponding arms of the message-loop `match` in `src/main.rs`:
`WM_ENTERSIZEMOVE` sets `is_resizing`, `WM_EXITSIZEMOVE` clears it, and
`WM_SIZE` unconditionally calls `graphics.update_backbuffer` (the
handler also updates the viewport and edge-anchored offset, which do not
interact with the backbuffer and are modelled separately above).
The second component reports whether that call reallocated. -/
def step_resize (s : ResizeLoopState) (e : ResizeEvent) : ResizeLoopState × Bool :=
  match e with
  | .enterSizeMove => ({ s with is_resizing := true }, false)
  | .exitSizeMove => ({ s with is_resizing := false }, false)
  | .size c =>
    let u := update_backbuffer s.backbuffer c
    ({ s with backbuffer := u.fst }, u.snd)

/-- C7 (amended): `WM_ENTERSIZEMOVE` sets the resizing flag and
`WM_EXITSIZEMOVE` clears it, but the flag does not gate backbuffer
reallocation: a `WM_SIZE` event calls `update_backbuffer` with the same
effect whether or not an interactive resize is in progress, so the
backbuffer can be reallocated on intermediate size events; only the
grow-only/512-alignment policy limits mid-gesture reallocations. -/
theorem size_handling_ignores_resizing_flag (s : ResizeLoopState) (c : Nat × Nat) :
    step_resize s ResizeEvent.enterSizeMove = ({ s with is_resizing := true }, false) ∧
      step_resize s ResizeEvent.exitSizeMove = ({ s with is_resizing := false }, false) ∧
      (step_resize s (ResizeEvent.size c)).fst.backbuffer =
        (update_backbuffer s.backbuffer c).fst ∧
      (step_resize s (ResizeEvent.size c)).snd = (update_backbuffer s.backbuffer c).snd ∧
      (step_resize ⟨true, s.backbuffer⟩ (ResizeEvent.size c)).snd =
        (step_resize ⟨false, s.backbuffer⟩ (ResizeEvent.size c)).snd :=
  ⟨rfl, rfl, rfl, rfl, rfl⟩

/-- Counterexample to C7 as stated: starting from no backbuffer, a
500×500 size event allocates 512×512; after `WM_ENTERSIZEMOVE` (resizing
flag set, gesture in progress) an intermediate 600×600 size event DOES
reallocate the backbuffer. -/
theorem backbuffer_reallocates_mid_gesture :
    ((step_resize (step_resize (ResizeLoopState.mk false none)
          (ResizeEvent.size (500, 500))).fst ResizeEvent.enterSizeMove).fst.is_resizing =
        true) ∧
      (step_resize
          (step_resize (step_resize (ResizeLoopState.mk false none)
              (ResizeEvent.size (500, 500))).fst ResizeEvent.enterSizeMove).fst
          (ResizeEvent.size (600, 600))).snd = true := by
  decide
